import Mathlib

/-!
Verification of the boxing fight-simulation repository
(`boxing/models/boxers_model.py` and `boxing/models/ring_model.py`).

The Python modules are shallowly embedded below.  SQLite-backed persistence
is modelled as an explicit list of boxer rows threaded through each
operation; fallible Python functions (those that `raise`) become
`Except String` values carrying the source's error message.  Python's
`float` arithmetic on boxer attributes is modelled with exact rationals
(all attribute values in play are exact decimals); the single use of
`math.e ** (-delta)` in the fight engine is modelled with `Real.exp`.
Logging calls are dropped, except where noted: the log statement inside
`get_fighting_skill` accesses `boxer.boxer_id`, a field that does not
exist on the `Boxer` dataclass (the field is named `id`), so the Python
function raises `AttributeError` on every call before computing the
score.  The scoring expression itself is embedded here; the broken
attribute access is recorded in the theorems about that function.
-/

/-- The `Boxer` dataclass from `boxers_model.py` (the in-memory value
used by the ring; `weight_class` is derived, and the persisted counters
live on `BoxerRow` below). -/
structure Boxer where
  id : Int
  name : String
  weight : Int
  height : Int
  reach : ℚ
  age : Int
deriving DecidableEq, Repr

/-- One row of the `boxers` SQLite table: the stored attributes plus the
persisted `fights` and `wins` counters. -/
structure BoxerRow where
  id : Int
  name : String
  weight : Int
  height : Int
  reach : ℚ
  age : Int
  fights : Int
  wins : Int
deriving DecidableEq, Repr

/-- `get_weight_class(weight)` from `boxers_model.py`: the cascade of
threshold tests, raising `ValueError` for weights below 125. -/
def get_weight_class (weight : Int) : Except String String :=
  if weight ≥ 203 then .ok "HEAVYWEIGHT"
  else if weight ≥ 166 then .ok "MIDDLEWEIGHT"
  else if weight ≥ 133 then .ok "LIGHTWEIGHT"
  else if weight ≥ 125 then .ok "FEATHERWEIGHT"
  else .error ("Invalid weight: " ++ toString weight ++ ". Weight must be at least 125.")

/-- `create_boxer(name, weight, height, reach, age)` from
`boxers_model.py`: the four attribute validations in source order, then
the uniqueness pre-check against the store, then the insert (SQLite
assigns the id; it is modelled as one more than the largest id in
the table, which the claims never depend on). -/
def create_boxer (db : List BoxerRow) (name : String) (weight : Int) (height : Int)
    (reach : ℚ) (age : Int) : Except String (List BoxerRow) :=
  if weight < 125 then
    .error ("Invalid weight: " ++ toString weight ++ ". Must be at least 125.")
  else if height ≤ 0 then
    .error ("Invalid height: " ++ toString height ++ ". Must be greater than 0.")
  else if reach ≤ 0 then
    .error ("Invalid reach: " ++ toString reach ++ ". Must be greater than 0.")
  else if ¬ (18 ≤ age ∧ age ≤ 40) then
    .error ("Invalid age: " ++ toString age ++ ". Must be between 18 and 40.")
  else if db.any (fun r => r.name = name) then
    .error ("Boxer with name '" ++ name ++ "' already exists")
  else
    .ok (db ++ [⟨(db.map BoxerRow.id).foldr max 0 + 1, name, weight, height, reach, age, 0, 0⟩])

/-- `update_boxer_stats(boxer_id, result)` from `boxers_model.py`: the
`result` value is validated first; then the store is consulted
(`SELECT id FROM boxers WHERE id = ?`), failing with not-found; then the
`UPDATE ... WHERE id = ?` statement bumps every row with that id. -/
def update_boxer_stats (db : List BoxerRow) (boxer_id : Int) (result : String) :
    Except String (List BoxerRow) :=
  if result ≠ "win" ∧ result ≠ "loss" then
    .error ("Invalid result: " ++ result ++ ". Expected 'win' or 'loss'")
  else if ¬ db.any (fun r => r.id = boxer_id) then
    .error ("Boxer with ID " ++ toString boxer_id ++ " not found.")
  else if result = "win" then
    .ok (db.map (fun r => if r.id = boxer_id then
      { r with fights := r.fights + 1, wins := r.wins + 1 } else r))
  else
    .ok (db.map (fun r => if r.id = boxer_id then
      { r with fights := r.fights + 1 } else r))

/-- The scoring expression of `get_fighting_skill` in `ring_model.py`:
`(boxer.weight * len(boxer.name)) + (boxer.reach / 10) + age_modifier`
with `age_modifier = -1` below 25, `-2` above 35, else `0`.
Note: in the source this expression is unreachable — the preceding log
statement reads `boxer.boxer_id`, an attribute that does not exist
(the dataclass field is `id`), so every call raises `AttributeError`. -/
def get_fighting_skill (boxer : Boxer) : ℚ :=
  let age_modifier : Int := if boxer.age < 25 then -1 else if boxer.age > 35 then -2 else 0
  (boxer.weight : ℚ) * (boxer.name.length : ℚ) + boxer.reach / 10 + (age_modifier : ℚ)

/-- `RingModel.__init__` from `ring_model.py`: the ring starts as an
empty list. -/
def init_ring : List Boxer := []

/-- `RingModel.enter_ring(boxer)` from `ring_model.py`: rejects when the
ring already holds two (or more) boxers, otherwise appends.  (The
`isinstance` type check is vacuous in the typed embedding.) -/
def enter_ring (ring : List Boxer) (boxer : Boxer) : Except String (List Boxer) :=
  if ring.length ≥ 2 then .error "Ring is full, cannot add more boxers."
  else .ok (ring ++ [boxer])

/-- `RingModel.clear_ring()` from `ring_model.py`: returns early (after a
log warning) when the ring is already empty, otherwise empties it. -/
def clear_ring (ring : List Boxer) : List Boxer :=
  if ring = [] then ring else []

/-- `RingModel.get_boxers()` from `ring_model.py`: returns the ring list. -/
def get_boxers (ring : List Boxer) : List Boxer :=
  ring

/-- Result of one `fight()` call: the value returned or error raised,
together with the ring contents and the stored rows after the call. -/
structure FightResult where
  res : Except String String
  ring : List Boxer
  db : List BoxerRow
deriving Repr

/-- The tail of `RingModel.fight()` after the winner and loser have been
decided: persist the winner's `'win'`, then the loser's `'loss'` (an
error in either propagates immediately — a failure of the second call
leaves the winner's update in place), then clear the ring and return the
winner's name. -/
def settle_fight (ring : List Boxer) (db : List BoxerRow) (winner loser : Boxer) :
    FightResult :=
  match update_boxer_stats db winner.id "win" with
  | .error e => ⟨.error e, ring, db⟩
  | .ok db1 =>
    match update_boxer_stats db1 loser.id "loss" with
    | .error e => ⟨.error e, ring, db1⟩
    | .ok db2 => ⟨.ok winner.name, clear_ring ring, db2⟩

/-- `RingModel.fight()` from `ring_model.py`: fails when fewer than two
boxers are present; unpacks the ring into `boxer_1, boxer_2` (a ring of
three or more would make the Python tuple unpacking raise, which the
capacity check makes unreachable); computes both skill scores, the
absolute difference `delta`, and `normalized_delta = 1 / (1 + e^(-delta))`;
compares the injected random draw against it to pick the winner; then
persists and clears via `settle_fight`.  The random draw `get_random()`
is passed in as `random_number`. -/
noncomputable def fight (ring : List Boxer) (db : List BoxerRow) (random_number : ℝ) :
    FightResult :=
  if ring.length < 2 then
    ⟨.error "There must be two boxers to start a fight.", ring, db⟩
  else
    match ring with
    | [boxer_1, boxer_2] =>
      let delta : ℚ := |get_fighting_skill boxer_1 - get_fighting_skill boxer_2|
      let normalized_delta : ℝ := 1 / (1 + Real.exp (-(delta : ℝ)))
      if random_number < normalized_delta then
        settle_fight ring db boxer_1 boxer_2
      else
        settle_fight ring db boxer_2 boxer_1
    | _ => ⟨.error "too many values to unpack (expected 2)", ring, db⟩

/-- The ring states reachable from a fresh `RingModel` through its
mutating operations (`enter_ring`, `clear_ring`, `fight`). -/
inductive ReachableRing : List Boxer → Prop where
  | init : ReachableRing init_ring
  | enter (ring : List Boxer) (b : Boxer) (ring' : List Boxer) :
      ReachableRing ring → enter_ring ring b = .ok ring' → ReachableRing ring'
  | clear (ring : List Boxer) : ReachableRing ring → ReachableRing (clear_ring ring)
  | fight_step (ring : List Boxer) (db : List BoxerRow) (r : ℝ) :
      ReachableRing ring → ReachableRing ((fight ring db r).ring)

/-- The `win_pct` column computed by the leaderboard query:
`wins * 1.0 / fights`. -/
def win_pct (r : BoxerRow) : ℚ :=
  (r.wins : ℚ) / (r.fights : ℚ)

/-- Python's `round(q, 1)` on the exact values arising here: round to one
decimal place (ties, which Python resolves to even, are modelled as
round-half-up; no claim depends on a tie). -/
def round1 (q : ℚ) : ℚ :=
  ((round (10 * q) : ℤ) : ℚ) / 10

/-- One element of the list returned by `get_leaderboard`: the dict built
per row, whose `win_pct` field is the percentage rounded to one decimal
(`round(row[8] * 100, 1)`). -/
structure LBEntry where
  id : Int
  name : String
  weight : Int
  height : Int
  reach : ℚ
  age : Int
  weight_class : String
  fights : Int
  wins : Int
  win_pct : ℚ
deriving DecidableEq, Repr

/-- The per-row dict construction inside `get_leaderboard`'s loop; the
`get_weight_class(row[2])` call can raise, which propagates. -/
def lb_entry (r : BoxerRow) : Except String LBEntry :=
  match get_weight_class r.weight with
  | .error e => .error e
  | .ok wc =>
    .ok ⟨r.id, r.name, r.weight, r.height, r.reach, r.age, wc, r.fights, r.wins,
         round1 (win_pct r * 100)⟩

/-- The loop of `get_leaderboard` over the fetched rows, in order; the
first raising row aborts the whole call. -/
def build_leaderboard : List BoxerRow → Except String (List LBEntry)
  | [] => .ok []
  | r :: rest =>
    match lb_entry r with
    | .error e => .error e
    | .ok e =>
      match build_leaderboard rest with
      | .error e2 => .error e2
      | .ok es => .ok (e :: es)

/-- The SQL part of `get_leaderboard(sort_by)`: rows with `fights > 0`,
ordered descending by the chosen key (`ORDER BY ... DESC` is modelled as
a stable sort); an unrecognized `sort_by` raises before the store is
touched. -/
def leaderboard_rows (db : List BoxerRow) (sort_by : String) :
    Except String (List BoxerRow) :=
  if sort_by = "win_pct" then
    .ok (List.insertionSort (fun a b => win_pct b ≤ win_pct a)
          (db.filter (fun r => 0 < r.fights)))
  else if sort_by = "wins" then
    .ok (List.insertionSort (fun a b => b.wins ≤ a.wins)
          (db.filter (fun r => 0 < r.fights)))
  else
    .error ("Invalid sort_by parameter: " ++ sort_by)

/-- `get_leaderboard(sort_by)` from `boxers_model.py`: query then the
dict-building loop. -/
def get_leaderboard (db : List BoxerRow) (sort_by : String) :
    Except String (List LBEntry) :=
  match leaderboard_rows db sort_by with
  | .error e => .error e
  | .ok rows => build_leaderboard rows

/-- The first boxer of the spec's fight scenario. -/
def mike_tyson : Boxer := ⟨1, "Mike Tyson", 220, 178, 71, 30⟩

/-- The second boxer of the spec's fight scenario. -/
def muhammad_ali : Boxer := ⟨2, "Muhammad Ali", 215, 191, 78, 30⟩

/-- A store holding both scenario boxers with fresh counters. -/
def fight_db : List BoxerRow :=
  [⟨1, "Mike Tyson", 220, 178, 71, 30, 0, 0⟩,
   ⟨2, "Muhammad Ali", 215, 191, 78, 30, 0, 0⟩]

/-- The leaderboard dict for a row whose weight is valid (total version
of `lb_entry`, used to state what the loop produces). -/
def entry_ok (r : BoxerRow) : LBEntry :=
  ⟨r.id, r.name, r.weight, r.height, r.reach, r.age,
   ((get_weight_class r.weight).toOption.getD ""), r.fights, r.wins,
   round1 (win_pct r * 100)⟩

/-- Clearing always yields the empty ring (the early return on an
already-empty ring returns that same empty list). -/
theorem clear_ring_eq_nil (ring : List Boxer) : clear_ring ring = [] := by
  unfold clear_ring
  split
  · assumption
  · rfl

/-- After the winner is decided, the settling tail either fails on a
stats update and leaves the ring as it was, or succeeds and empties it. -/
theorem settle_fight_ring_spec (ring : List Boxer) (db : List BoxerRow) (w l : Boxer) :
    ((settle_fight ring db w l).res.isOk = true → (settle_fight ring db w l).ring = []) ∧
    ((settle_fight ring db w l).res.isOk = false → (settle_fight ring db w l).ring = ring) := by
  unfold settle_fight
  split
  · exact ⟨(fun h => nomatch h), fun _ => rfl⟩
  · split
    · exact ⟨(fun h => nomatch h), fun _ => rfl⟩
    · exact ⟨fun _ => clear_ring_eq_nil ring, fun h => nomatch h⟩

/-- The logistic value `1 / (1 + e^x)` is always below 1. -/
theorem one_div_one_add_exp_lt_one (x : ℝ) : 1 / (1 + Real.exp x) < 1 := by
  have h := Real.exp_pos x
  rw [div_lt_one (by linarith)]
  linarith

/-- With a draw of at least 1 the comparison `random_number <
normalized_delta` is false (the logistic value is below 1), so `fight`
on a two-boxer ring takes the else-branch: the second occupant is the
winner. -/
theorem fight_two_else (b1 b2 : Boxer) (db : List BoxerRow) (r : ℝ) (hr : 1 ≤ r) :
    fight [b1, b2] db r = settle_fight [b1, b2] db b2 b1 := by
  have hlt : (1 : ℝ) /
      (1 + Real.exp (-((|get_fighting_skill b1 - get_fighting_skill b2| : ℚ) : ℝ))) < 1 :=
    one_div_one_add_exp_lt_one _
  unfold fight
  rw [if_neg (by simp)]
  dsimp only
  rw [if_neg (not_lt.mpr (le_of_lt (lt_of_lt_of_le hlt hr)))]

/-- Whatever happens inside `fight`, the ring afterwards is empty exactly
when the call returned a winner, and untouched exactly when the call
raised (precondition failure or stats-persistence failure). -/
theorem fight_ring_spec (ring : List Boxer) (db : List BoxerRow) (r : ℝ) :
    ((fight ring db r).res.isOk = true → (fight ring db r).ring = []) ∧
    ((fight ring db r).res.isOk = false → (fight ring db r).ring = ring) := by
  unfold fight
  split
  · exact ⟨(fun h => nomatch h), fun _ => rfl⟩
  · split
    · dsimp only
      split
      · exact settle_fight_ring_spec _ _ _ _
      · exact settle_fight_ring_spec _ _ _ _
    · exact ⟨(fun h => nomatch h), fun _ => rfl⟩

/-- After any `fight` call the ring is either untouched or empty. -/
theorem fight_ring_cases (ring : List Boxer) (db : List BoxerRow) (r : ℝ) :
    (fight ring db r).ring = ring ∨ (fight ring db r).ring = [] := by
  rcases Bool.eq_false_or_eq_true (fight ring db r).res.isOk with h | h
  · exact Or.inr ((fight_ring_spec ring db r).1 h)
  · exact Or.inl ((fight_ring_spec ring db r).2 h)

/-- A weight of at least 125 always gets a weight class. -/
theorem get_weight_class_ok_of_le (w : Int) (h : 125 ≤ w) :
    ∃ s, get_weight_class w = .ok s := by
  unfold get_weight_class
  split_ifs
  all_goals exact ⟨_, rfl⟩

/-- On a valid-weight row the loop body produces the enriched dict. -/
theorem lb_entry_eq_ok (r : BoxerRow) (h : 125 ≤ r.weight) :
    lb_entry r = .ok (entry_ok r) := by
  obtain ⟨s, hs⟩ := get_weight_class_ok_of_le r.weight h
  unfold lb_entry entry_ok
  rw [hs]
  simp [Except.toOption]

/-- On valid-weight rows the whole loop succeeds and maps `entry_ok`. -/
theorem build_leaderboard_eq_map (rows : List BoxerRow)
    (h : ∀ r ∈ rows, 125 ≤ r.weight) :
    build_leaderboard rows = .ok (rows.map entry_ok) := by
  induction rows with
  | nil => rfl
  | cons r rest ih =>
    unfold build_leaderboard
    rw [lb_entry_eq_ok r (h r (by simp)), ih (fun x hx => h x (by simp [hx]))]
    rfl

/-- C1: the scoring expression of `get_fighting_skill`, evaluated at the
boxer used by the repository's own test
(`Boxer(1, "Mike Tyson", 220, 178, 71.0, 30)`), yields
`220 * 10 + 71/10 + 0 = 2207.1`, the value the test asserts.  In the
source this value is never returned: the preceding log statement reads
the non-existent attribute `boxer.boxer_id` and raises `AttributeError`. -/
theorem C1_fighting_skill_formula_at_test_boxer :
    get_fighting_skill ⟨1, "Mike Tyson", 220, 178, 71, 30⟩ = 22071 / 10 := by
  have hlen0 : "Mike Tyson".length = 10 := rfl
  have hlen : ("Mike Tyson".length : ℚ) = 10 := by rw [hlen0]; norm_num
  unfold get_fighting_skill
  norm_num [hlen]

/-- C2: with Tyson and Ali entered in that order and the random draw
fixed at 1.3 (which is at least any logistic value), the else-branch is
taken and the reported winner is "Muhammad Ali", the second occupant;
the ring ends cleared.  (In the source this return is never reached:
`fight` calls `get_fighting_skill`, whose log statement raises
`AttributeError`; this theorem evaluates the flow with that broken
log statement elided.) -/
theorem C2_fight_scenario :
    (fight [mike_tyson, muhammad_ali] fight_db (13 / 10 : ℝ)).res = .ok "Muhammad Ali" ∧
    (fight [mike_tyson, muhammad_ali] fight_db (13 / 10 : ℝ)).ring = [] := by
  rw [fight_two_else _ _ _ _ (by norm_num)]
  exact ⟨rfl, rfl⟩

/-- Counterexample to C3: same two boxers with the draw at 1.3, but an
empty store, so the first stat-persistence call fails ("Boxer with ID 2
not found."); the error propagates before `clear_ring` is reached and
the ring still holds both boxers — it does not end empty. -/
theorem C3_counterexample :
    (fight [mike_tyson, muhammad_ali] [] (13 / 10 : ℝ)).res =
      .error "Boxer with ID 2 not found." ∧
    (fight [mike_tyson, muhammad_ali] [] (13 / 10 : ℝ)).ring =
      [mike_tyson, muhammad_ali] ∧
    (fight [mike_tyson, muhammad_ali] [] (13 / 10 : ℝ)).ring ≠ [] := by
  rw [fight_two_else _ _ _ _ (by norm_num)]
  refine ⟨rfl, rfl, ?_⟩
  simp [settle_fight, update_boxer_stats]

/-- C3 (amended): the ring is cleared exactly when the fight completed
(winner decided and both stat updates persisted); when the call fails —
including when a stat-persistence call fails — the error propagates
before the clear and the ring is left unchanged. -/
theorem C3_fight_clears_iff_completed (ring : List Boxer) (db : List BoxerRow) (r : ℝ) :
    ((fight ring db r).res.isOk = true → (fight ring db r).ring = []) ∧
    ((fight ring db r).res.isOk = false → (fight ring db r).ring = ring) :=
  fight_ring_spec ring db r

/-- Witness for C3 (amended): a failing call (single-occupant ring)
leaves the ring unchanged. -/
theorem C3_amended_witness :
    (fight [⟨7, "Solo", 150, 70, 70, 30⟩] [] 0).ring = [⟨7, "Solo", 150, 70, 70, 30⟩] :=
  (C3_fight_clears_iff_completed [⟨7, "Solo", 150, 70, 70, 30⟩] [] 0).2 rfl

/-- C4: `deriveWeightClass(w)` fails exactly when `w < 125`, and otherwise
is the step function with thresholds 125, 133, 166, 203. -/
theorem C4_get_weight_class_spec (w : Int) :
    ((∃ s, get_weight_class w = .ok s) ↔ 125 ≤ w) ∧
    (w < 125 → get_weight_class w =
      .error ("Invalid weight: " ++ toString w ++ ". Weight must be at least 125.")) ∧
    (203 ≤ w → get_weight_class w = .ok "HEAVYWEIGHT") ∧
    (166 ≤ w → w < 203 → get_weight_class w = .ok "MIDDLEWEIGHT") ∧
    (133 ≤ w → w < 166 → get_weight_class w = .ok "LIGHTWEIGHT") ∧
    (125 ≤ w → w < 133 → get_weight_class w = .ok "FEATHERWEIGHT") := by
  unfold get_weight_class
  split_ifs with h1 h2 h3 h4 <;> refine ⟨?_, ?_, ?_, ?_, ?_, ?_⟩ <;> simp_all <;> omega

/-- Witness for C4 at the thresholds named by the spec's scenario. -/
theorem C4_witness :
    get_weight_class 210 = .ok "HEAVYWEIGHT" ∧
    get_weight_class 170 = .ok "MIDDLEWEIGHT" ∧
    get_weight_class 150 = .ok "LIGHTWEIGHT" ∧
    get_weight_class 130 = .ok "FEATHERWEIGHT" ∧
    get_weight_class 120 = .error "Invalid weight: 120. Weight must be at least 125." :=
  ⟨(C4_get_weight_class_spec 210).2.2.1 (by omega),
   (C4_get_weight_class_spec 170).2.2.2.1 (by omega) (by omega),
   (C4_get_weight_class_spec 150).2.2.2.2.1 (by omega) (by omega),
   (C4_get_weight_class_spec 130).2.2.2.2.2 (by omega) (by omega),
   (C4_get_weight_class_spec 120).2.1 (by omega)⟩

/-- C5: `fight` on a ring with fewer than two boxers fails with the
insufficient-boxers error, and neither the ring nor any stored counter
changes. -/
theorem C5_fight_insufficient (ring : List Boxer) (db : List BoxerRow) (r : ℝ)
    (h : ring.length < 2) :
    fight ring db r = ⟨.error "There must be two boxers to start a fight.", ring, db⟩ := by
  unfold fight
  rw [if_pos h]

/-- Witness for C5 on the empty ring. -/
theorem C5_witness :
    fight [] [] 0 = ⟨.error "There must be two boxers to start a fight.", [], []⟩ :=
  C5_fight_insufficient [] [] 0 (by decide)

/-- C6: for an id present in the store, recording a win increments that
boxer's `fights` and `wins` by exactly one, recording a loss increments
`fights` by one and leaves `wins` unchanged, every other row is
untouched, and `wins ≤ fights` is preserved by both updates. -/
theorem C6_update_stats_increments (db : List BoxerRow) (i : Int)
    (hex : ∃ r ∈ db, r.id = i) :
    ∃ dbW dbL,
      update_boxer_stats db i "win" = .ok dbW ∧
      update_boxer_stats db i "loss" = .ok dbL ∧
      dbW.length = db.length ∧ dbL.length = db.length ∧
      (∀ k : Nat, ∀ hk : k < db.length, ∀ hkW : k < dbW.length, ∀ hkL : k < dbL.length,
        (db[k].id = i →
            dbW[k].fights = db[k].fights + 1 ∧
            dbW[k].wins = db[k].wins + 1 ∧
            dbL[k].fights = db[k].fights + 1 ∧
            dbL[k].wins = db[k].wins) ∧
        (db[k].id ≠ i → dbW[k] = db[k] ∧ dbL[k] = db[k])) ∧
      ((∀ r ∈ db, r.wins ≤ r.fights) →
        (∀ r ∈ dbW, r.wins ≤ r.fights) ∧ (∀ r ∈ dbL, r.wins ≤ r.fights)) := by
  have hany : db.any (fun r => r.id = i) = true := by
    rcases hex with ⟨r, hr, hri⟩
    exact List.any_eq_true.mpr ⟨r, hr, by simp [hri]⟩
  refine ⟨db.map (fun r => if r.id = i then
            { r with fights := r.fights + 1, wins := r.wins + 1 } else r),
          db.map (fun r => if r.id = i then
            { r with fights := r.fights + 1 } else r), ?_, ?_, ?_, ?_, ?_, ?_⟩
  · unfold update_boxer_stats
    rw [if_neg (by decide), if_neg (not_not_intro hany), if_pos rfl]
  · unfold update_boxer_stats
    rw [if_neg (by decide), if_neg (not_not_intro hany), if_neg (by decide)]
  · simp
  · simp
  · intro k hk hkW hkL
    constructor
    · intro hid
      simp [List.getElem_map, hid]
    · intro hid
      simp [List.getElem_map, hid]
  · intro h
    constructor <;> intro r hr <;> rcases List.mem_map.mp hr with ⟨r0, hr0, rfl⟩ <;>
      have := h r0 hr0 <;> by_cases h0 : r0.id = i <;> simp [h0] <;> omega

/-- Witness for C6 on a one-row store holding id 1 with 3 fights and
2 wins: both outcome updates succeed. -/
theorem C6_witness :
    (update_boxer_stats [⟨1, "Ali", 210, 75, 78, 30, 3, 2⟩] 1 "win").isOk = true ∧
    (update_boxer_stats [⟨1, "Ali", 210, 75, 78, 30, 3, 2⟩] 1 "loss").isOk = true := by
  obtain ⟨dbW, dbL, h1, h2, _⟩ :=
    C6_update_stats_increments [⟨1, "Ali", 210, 75, 78, 30, 3, 2⟩] 1 (by decide)
  exact ⟨by rw [h1]; rfl, by rw [h2]; rfl⟩

/-- C7: the ring starts empty; entering a full ring fails with the Full
error (whatever the entering boxer is, duplicates included) and, being a
failure, changes nothing; clearing always yields the empty ring; and no
state reachable through the ring's operations ever holds more than two
boxers. -/
theorem C7_ring_capacity :
    init_ring = ([] : List Boxer) ∧
    (∀ (ring : List Boxer) (b : Boxer), 2 ≤ ring.length →
      enter_ring ring b = .error "Ring is full, cannot add more boxers.") ∧
    (∀ ring : List Boxer, clear_ring ring = []) ∧
    (∀ ring : List Boxer, ReachableRing ring → ring.length ≤ 2) := by
  refine ⟨rfl, ?_, clear_ring_eq_nil, ?_⟩
  · intro ring b h
    unfold enter_ring
    rw [if_pos h]
  · intro ring h
    induction h with
    | init => simp [init_ring]
    | enter ring b ring' hr hok ih =>
      unfold enter_ring at hok
      by_cases hfull : ring.length ≥ 2
      · rw [if_pos hfull] at hok
        exact absurd hok (by simp)
      · rw [if_neg hfull] at hok
        injection hok with h'
        subst h'
        simp only [List.length_append, List.length_cons, List.length_nil]
        omega
    | clear ring hr ih =>
      rw [clear_ring_eq_nil]
      simp
    | fight_step ring db r hr ih =>
      rcases fight_ring_cases ring db r with h | h <;> rw [h]
      · exact ih
      · simp

/-- Witness for C7: a third entry into a full ring is rejected (here even
a duplicate of an occupant), and the initial state is within capacity. -/
theorem C7_witness :
    enter_ring [mike_tyson, muhammad_ali] mike_tyson =
      .error "Ring is full, cannot add more boxers." ∧
    init_ring.length ≤ 2 :=
  ⟨C7_ring_capacity.2.1 [mike_tyson, muhammad_ali] mike_tyson (by simp),
   C7_ring_capacity.2.2.2 init_ring ReachableRing.init⟩

/-- Counterexample to C8: a stored row with 2 fights and 1 win appears
in the leaderboard with `win_pct = 50` — the rounded percentage computed
inside `get_leaderboard` itself — not the unscaled fraction `1/2` the
claim asserts for the returned record. -/
theorem C8_counterexample :
    get_leaderboard [⟨1, "Rocky", 130, 70, 70, 25, 2, 1⟩] "wins" =
      .ok [⟨1, "Rocky", 130, 70, 70, 25, "FEATHERWEIGHT", 2, 1, 50⟩] ∧
    ((50 : ℚ) ≠ (1 : ℚ) / 2) := by
  constructor
  · unfold get_leaderboard leaderboard_rows
    rw [if_neg (by decide), if_pos rfl]
    dsimp only
    norm_num [List.filter, List.insertionSort, List.orderedInsert, build_leaderboard,
      lb_entry, get_weight_class, win_pct, round1, round_eq]
  · norm_num

/-- C8 (amended): for recognized sort keys, on stores whose rows carry
valid weights, the leaderboard succeeds; it contains an entry exactly
for each stored row with `fights > 0`; each returned record's `win_pct`
is the percentage `wins / fights * 100` rounded to one decimal (not the
unscaled fraction); and the sequence is sorted descending by the chosen
key (`wins`, or the unscaled fraction `wins / fights`). -/
theorem C8_leaderboard_spec (db : List BoxerRow) (key : String)
    (hw : ∀ r ∈ db, 125 ≤ r.weight)
    (hkey : key = "wins" ∨ key = "win_pct") :
    ∃ l, get_leaderboard db key = .ok l ∧
      (∀ e ∈ l, ∃ r ∈ db, 0 < r.fights ∧ e = entry_ok r ∧
        e.wins = r.wins ∧ e.fights = r.fights ∧
        e.win_pct = round1 ((r.wins : ℚ) / (r.fights : ℚ) * 100)) ∧
      (∀ r ∈ db, 0 < r.fights → entry_ok r ∈ l) ∧
      (key = "wins" → l.Sorted (fun a b => b.wins ≤ a.wins)) ∧
      (key = "win_pct" → l.Sorted (fun a b =>
        (b.wins : ℚ) / (b.fights : ℚ) ≤ (a.wins : ℚ) / (a.fights : ℚ))) := by
  rcases hkey with hk | hk <;> subst hk
  · set rows := List.insertionSort (fun a b => b.wins ≤ a.wins)
      (db.filter (fun r => 0 < r.fights)) with hrows
    have hmem : ∀ r ∈ rows, r ∈ db ∧ 0 < r.fights := by
      intro r hr
      rw [hrows, List.mem_insertionSort, List.mem_filter] at hr
      exact ⟨hr.1, by simpa using hr.2⟩
    refine ⟨rows.map entry_ok, ?_, ?_, ?_, ?_, ?_⟩
    · unfold get_leaderboard leaderboard_rows
      rw [if_neg (by decide), if_pos rfl]
      dsimp only
      exact build_leaderboard_eq_map rows (fun r hr => hw r (hmem r hr).1)
    · intro e he
      rcases List.mem_map.mp he with ⟨r, hr, rfl⟩
      rcases hmem r hr with ⟨h1, h2⟩
      exact ⟨r, h1, h2, rfl, rfl, rfl, rfl⟩
    · intro r hr hf
      refine List.mem_map.mpr ⟨r, ?_, rfl⟩
      rw [hrows, List.mem_insertionSort, List.mem_filter]
      exact ⟨hr, by simpa using hf⟩
    · intro _
      have hs : rows.Sorted (fun a b => b.wins ≤ a.wins) := by
        haveI : IsTotal BoxerRow (fun a b => b.wins ≤ a.wins) := ⟨fun a b => le_total _ _⟩
        haveI : IsTrans BoxerRow (fun a b => b.wins ≤ a.wins) :=
          ⟨fun a b c h1 h2 => le_trans h2 h1⟩
        exact List.sorted_insertionSort _ _
      exact List.Pairwise.map entry_ok (fun a b h => h) hs
    · intro hcontra
      exact absurd hcontra (by decide)
  · set rows := List.insertionSort (fun a b => win_pct b ≤ win_pct a)
      (db.filter (fun r => 0 < r.fights)) with hrows
    have hmem : ∀ r ∈ rows, r ∈ db ∧ 0 < r.fights := by
      intro r hr
      rw [hrows, List.mem_insertionSort, List.mem_filter] at hr
      exact ⟨hr.1, by simpa using hr.2⟩
    refine ⟨rows.map entry_ok, ?_, ?_, ?_, ?_, ?_⟩
    · unfold get_leaderboard leaderboard_rows
      rw [if_pos rfl]
      dsimp only
      exact build_leaderboard_eq_map rows (fun r hr => hw r (hmem r hr).1)
    · intro e he
      rcases List.mem_map.mp he with ⟨r, hr, rfl⟩
      rcases hmem r hr with ⟨h1, h2⟩
      exact ⟨r, h1, h2, rfl, rfl, rfl, rfl⟩
    · intro r hr hf
      refine List.mem_map.mpr ⟨r, ?_, rfl⟩
      rw [hrows, List.mem_insertionSort, List.mem_filter]
      exact ⟨hr, by simpa using hf⟩
    · intro hcontra
      exact absurd hcontra (by decide)
    · intro _
      have hs : rows.Sorted (fun a b => win_pct b ≤ win_pct a) := by
        haveI : IsTotal BoxerRow (fun a b => win_pct b ≤ win_pct a) :=
          ⟨fun a b => le_total _ _⟩
        haveI : IsTrans BoxerRow (fun a b => win_pct b ≤ win_pct a) :=
          ⟨fun a b c h1 h2 => le_trans h2 h1⟩
        exact List.sorted_insertionSort _ _
      exact List.Pairwise.map entry_ok (fun a b h => h) hs

/-- Witness for C8 (amended): a two-row store (one row with fights,
one without) under the `"wins"` key yields a leaderboard. -/
theorem C8_amended_witness :
    (get_leaderboard
      [⟨1, "Foreman", 130, 70, 70, 25, 2, 1⟩, ⟨2, "Frazier", 210, 75, 78, 30, 0, 0⟩]
      "wins").isOk = true := by
  obtain ⟨l, hl, _⟩ :=
    C8_leaderboard_spec
      [⟨1, "Foreman", 130, 70, 70, 25, 2, 1⟩, ⟨2, "Frazier", 210, 75, 78, 30, 0, 0⟩]
      "wins" (by decide) (Or.inl rfl)
  rw [hl]
  rfl

/-- C9: `create_boxer` validates weight, height, reach, age in that fixed
order; each failure is the corresponding error, for every store content
(so before and independent of any persistence access). -/
theorem C9_create_boxer_validation (db : List BoxerRow) (nm : String)
    (weight height : Int) (reach : ℚ) (age : Int) :
    (weight < 125 → create_boxer db nm weight height reach age =
      .error ("Invalid weight: " ++ toString weight ++ ". Must be at least 125.")) ∧
    (125 ≤ weight → height ≤ 0 → create_boxer db nm weight height reach age =
      .error ("Invalid height: " ++ toString height ++ ". Must be greater than 0.")) ∧
    (125 ≤ weight → 0 < height → reach ≤ 0 → create_boxer db nm weight height reach age =
      .error ("Invalid reach: " ++ toString reach ++ ". Must be greater than 0.")) ∧
    (125 ≤ weight → 0 < height → 0 < reach → (age < 18 ∨ 40 < age) →
      create_boxer db nm weight height reach age =
      .error ("Invalid age: " ++ toString age ++ ". Must be between 18 and 40.")) := by
  unfold create_boxer
  split_ifs with h1 h2 h3 h4 h5 <;>
    refine ⟨?_, ?_, ?_, ?_⟩ <;> intros <;>
    first | rfl | omega | linarith

/-- Witness for C9: each of the four validation failures at a concrete
input, against a nonempty store that is not touched. -/
theorem C9_witness :
    create_boxer [⟨1, "X", 130, 70, 70, 25, 0, 0⟩] "Kid" 100 70 70 25 =
      .error "Invalid weight: 100. Must be at least 125." ∧
    create_boxer [⟨1, "X", 130, 70, 70, 25, 0, 0⟩] "Kid" 130 0 70 25 =
      .error "Invalid height: 0. Must be greater than 0." ∧
    create_boxer [⟨1, "X", 130, 70, 70, 25, 0, 0⟩] "Kid" 130 70 0 25 =
      .error "Invalid reach: 0. Must be greater than 0." ∧
    create_boxer [⟨1, "X", 130, 70, 70, 25, 0, 0⟩] "Kid" 130 70 70 17 =
      .error "Invalid age: 17. Must be between 18 and 40." :=
  ⟨(C9_create_boxer_validation _ "Kid" 100 70 70 25).1 (by omega),
   (C9_create_boxer_validation _ "Kid" 130 0 70 25).2.1 (by omega) (by omega),
   (C9_create_boxer_validation _ "Kid" 130 70 0 25).2.2.1 (by omega) (by omega) (by norm_num),
   (C9_create_boxer_validation _ "Kid" 130 70 70 17).2.2.2 (by omega) (by omega) (by norm_num)
     (by omega)⟩

/-- C10: an unrecognized outcome string is rejected first: the error is
the invalid-result one for every store content and id, in particular
when the id is unknown too. -/
theorem C10_update_stats_result_checked_first (db : List BoxerRow) (boxer_id : Int)
    (result : String) (h1 : result ≠ "win") (h2 : result ≠ "loss") :
    update_boxer_stats db boxer_id result =
      .error ("Invalid result: " ++ result ++ ". Expected 'win' or 'loss'") := by
  unfold update_boxer_stats
  rw [if_pos ⟨h1, h2⟩]

/-- Witness for C10: outcome `"draw"` against an empty store (id 42 is
unknown), still reported as the invalid-result error. -/
theorem C10_witness :
    update_boxer_stats [] 42 "draw" =
      .error "Invalid result: draw. Expected 'win' or 'loss'" :=
  C10_update_stats_result_checked_first [] 42 "draw" (by decide) (by decide)
